import Mathlib

/-
Shallow embedding of the request-handling core of src/app/app.py, a FastAPI
service exposing POST /predict with environment-gated authentication,
fan-out prediction over loaded models, and best-effort MongoDB logging.
External collaborators (the token verifier app.auth.verify_token, the
predictors, the MongoDB collection) are modelled by their observable
outcomes, over which the theorems quantify.
-/

namespace BasicML

/-- Decidable equality for Except, used by the derived instances below. -/
instance exceptDecEq {e a : Type} [DecidableEq e] [DecidableEq a] :
    DecidableEq (Except e a) := fun x y =>
  match x, y with
  | Except.ok u, Except.ok v =>
      if h : u = v then isTrue (by rw [h]) else
        isFalse (by intro hc; injection hc; contradiction)
  | Except.error u, Except.error v =>
      if h : u = v then isTrue (by rw [h]) else
        isFalse (by intro hc; injection hc; contradiction)
  | Except.ok _, Except.error _ => isFalse (by intro hc; injection hc)
  | Except.error _, Except.ok _ => isFalse (by intro hc; injection hc)

/-- Errors a request can surface. `httpError` is a raised
fastapi.HTTPException (translated by FastAPI to that status code);
`nameErr` is a Python NameError on an unbound module-level name;
`exn` is any other uncaught exception (FastAPI turns it into a 500). -/
inductive AppError where
  | httpError (status : Nat) (detail : String)
  | nameErr (missing : String)
  | exn (msg : String)
deriving DecidableEq, Repr

/-- A process environment: the mapping queried by os.getenv. -/
def Environ : Type := String → Option String

/-- Python str.lower(), modelled character-wise over the underlying list
(ASCII case mapping; the configuration strings compared here are ASCII). -/
def pyLower (s : String) : String :=
  String.mk (s.data.map Char.toLower)

/-- Line 23 of app.py: ENV = os.getenv("ENV", "prod").lower().
Read once at module import time. -/
def readEnv (environ : Environ) : String :=
  pyLower ((environ "ENV").getD "prod")

/-- Line 60 of app.py: the Authorization Gate is in the bypass state
exactly when the module-level ENV equals "dev". -/
def gateIsBypass (env : String) : Bool :=
  env == "dev"

/-- Lines 57-68 of app.py, conditional_auth. The external verify_token call
is modelled by its outcome (ok identity, or error = raised exception).
Returns the auth result together with the number of verifier invocations. -/
def conditional_auth (env : String) (verifier : Except String String) :
    Except AppError String × Nat :=
  if gateIsBypass env then
    (Except.ok "dev_user", 0)
  else
    match verifier with
    | Except.ok u => (Except.ok u, 1)
    | Except.error _ =>
        (Except.error (AppError.httpError 401 "Authentication failed"), 1)

/-- One model's prediction output: predict(text) -> (top_intent, all_probs).
Python float probabilities are modelled as rationals; no claim inspects
their numeric values. -/
structure PredOut where
  top_intent : String
  all_probs : List (String × Rat)
deriving DecidableEq, Repr

/-- A predictor: model.predict(text) either returns a PredOut or raises. -/
def Predictor : Type := String → Except String PredOut

/-- Lines 113-119 of app.py: the fan-out loop over MODELS.items(), in
iteration order, building the predictions mapping (modelled as an
association list in insertion order). An exception from any predictor
aborts the loop and propagates. Also returns how many predict calls ran. -/
def runModels (models : List (String × Predictor)) (text : String) :
    Except String (List (String × PredOut)) × Nat :=
  match models with
  | [] => (Except.ok [], 0)
  | (name, m) :: rest =>
    match m text with
    | Except.error e => (Except.error e, 1)
    | Except.ok r =>
      match runModels rest text with
      | (Except.error e, n) => (Except.error e, n + 1)
      | (Except.ok rs, n) => (Except.ok ((name, r) :: rs), n + 1)

/-- The Request Record assembled at lines 121-126 of app.py and mutated by
the persistence step (lines 128-137): id is attached on insert success,
db_error on insert failure. -/
structure RequestRecord where
  text : String
  owner : String
  predictions : List (String × PredOut)
  timestamp : Int
  id : Option String
  db_error : Option String
deriving DecidableEq, Repr

/-- The MongoDB collection handle, modelled by the observable outcome of
collection.insert_one on this request: a generated id string, or a raised
exception. -/
structure Handle where
  insertOutcome : Except String String
deriving DecidableEq, Repr

/-- Lines 49-54 of app.py: the startup try/except around
get_mongo_collection. On success the module-level name collection is bound;
if the call raises, the except block only logs, so the name is never bound
(modelled as none). -/
def startupBinding (dbResult : Except String Handle) : Option Handle :=
  match dbResult with
  | Except.ok h => some h
  | Except.error _ => none

/-- Lines 128-137 of app.py: the persistence step. Evaluating
`collection is not None` with the name unbound raises NameError. With a
bound collection, insert success attaches id (str(results['_id'])) and
drops _id; insert failure is swallowed and db_error is attached. Also
returns the number of insert_one calls made. -/
def persistStep (binding : Option Handle) (rec : RequestRecord) :
    Except AppError RequestRecord × Nat :=
  match binding with
  | none => (Except.error (AppError.nameErr "collection"), 0)
  | some h =>
    match h.insertOutcome with
    | Except.ok generatedId =>
        (Except.ok { rec with id := some generatedId }, 1)
    | Except.error _ =>
        (Except.ok
          { rec with db_error := some "Failed to log prediction to database." },
         1)

/-- The observable outcome of one POST /predict request: the result (ok
record = 200 JSON body, error = raised exception) plus effect counters. -/
structure PredictOutcome where
  result : Except AppError RequestRecord
  verifierCalls : Nat
  predictCalls : Nat
  insertCalls : Nat
deriving DecidableEq, Repr

/-- Lines 110-140 of app.py: the POST /predict handler. FastAPI resolves
the Depends(conditional_auth) dependency first; if it raises, the handler
body never runs (no predictions, no insert). Otherwise the fan-out runs,
the record is assembled with the clock value at assembly time, and the
best-effort persistence step runs. -/
def predict (env : String) (verifier : Except String String)
    (models : List (String × Predictor)) (binding : Option Handle)
    (text : String) (now : Int) : PredictOutcome :=
  match conditional_auth env verifier with
  | (Except.error e, vc) =>
      { result := Except.error e, verifierCalls := vc,
        predictCalls := 0, insertCalls := 0 }
  | (Except.ok owner, vc) =>
    match runModels models text with
    | (Except.error e, pc) =>
        { result := Except.error (AppError.exn e), verifierCalls := vc,
          predictCalls := pc, insertCalls := 0 }
    | (Except.ok preds, pc) =>
      match persistStep binding
          { text := text, owner := owner, predictions := preds,
            timestamp := now, id := none, db_error := none } with
      | (r, ic) =>
          { result := r, verifierCalls := vc,
            predictCalls := pc, insertCalls := ic }

/-- The HTTP status FastAPI produces for a handler outcome: 200 for a
returned JSONResponse, the carried status for a raised HTTPException,
500 for any other uncaught exception. -/
def statusOf : Except AppError RequestRecord → Nat
  | Except.ok _ => 200
  | Except.error (AppError.httpError s _) => s
  | Except.error (AppError.nameErr _) => 500
  | Except.error (AppError.exn _) => 500

/-- Lines 104-107 of app.py: the GET / health message. -/
def root (env : String) : String :=
  "Basic ML App is running in " ++ env ++ " mode"

/-- The bypass condition exactly as the specification words it, kept for
comparison with the code's gateIsBypass: the environment mode value
compares case-insensitively equal to the sentinel "development". -/
def specBypassCondition (modeValue : String) : Bool :=
  pyLower modeValue == "development"

/-- The process-wide state fixed at startup: the module-level ENV (read
once at import, line 23), the loaded MODELS registry (lines 72-97) and the
collection binding (lines 49-54). Nothing reassigns any of these later. -/
structure AppState where
  env : String
  models : List (String × Predictor)
  binding : Option Handle

/-- Process startup: ENV is read from the startup environment; the model
registry and the database binding are fixed. -/
def startup (environ : Environ) (dbResult : Except String Handle)
    (models : List (String × Predictor)) : AppState :=
  { env := readEnv environ, models := models,
    binding := startupBinding dbResult }

/-- One request arriving during a process run. liveEnviron is the process
environment at the time the request is handled; the handlers read the
module-level ENV captured at import instead (the global ENV at line 59 is
never reassigned), so this field is unused by the code. -/
structure RunRequest where
  liveEnviron : Environ
  verifier : Except String String
  text : String
  now : Int

/-- Serving one POST /predict request during a run: the handler uses the
startup-time state only, never the request-time environment. -/
def serveRequest (st : AppState) (r : RunRequest) : PredictOutcome :=
  predict st.env r.verifier st.models st.binding r.text r.now

/-- Serving one GET / request during a run: the message uses the
startup-time ENV only, never the request-time environment. -/
def serveRoot (st : AppState) (_liveEnviron : Environ) : String :=
  root st.env

/-- Fixture prediction output mirroring the mocked model of
tests/teste_api.py (probabilities are payload only; no claim reads them). -/
def demoPredOut : PredOut :=
  { top_intent := "saudacao", all_probs := [("saudacao", 1), ("outro", 0)] }

/-- Fixture predictor that always succeeds with demoPredOut. -/
def demoPredictor : Predictor := fun _ => Except.ok demoPredOut

/-- Fixture registry with one loaded model, named as in the tests. -/
def demoModels : List (String × Predictor) := [("dummy_model", demoPredictor)]

/-- Fixture predictor whose predict call raises. -/
def failingPredictor : Predictor := fun _ => Except.error "predict failed"

/-- Serving a whole sequence of POST /predict requests within one process
run, against the fixed startup state. -/
def serveAll (st : AppState) (reqs : List RunRequest) :
    List PredictOutcome :=
  reqs.map (serveRequest st)

/-- The non-clock part of the i-th request of a sequential run. -/
structure ReqSpec where
  verifier : Except String String
  text : String

/-- The outcome of the i-th request of a sequential run whose system clock
reads clock i (unix seconds) when the i-th record is assembled. -/
def nthOutcome (st : AppState) (clock : Nat → Int) (reqs : Nat → ReqSpec)
    (i : Nat) : PredictOutcome :=
  predict st.env (reqs i).verifier st.models st.binding (reqs i).text
    (clock i)

/-- A successful fan-out produces one entry per registered model, keyed by
the model's name, in registry order. -/
theorem runModels_ok_keys (models : List (String × Predictor))
    (text : String) (preds : List (String × PredOut)) (n : Nat)
    (h : runModels models text = (Except.ok preds, n)) :
    preds.map Prod.fst = models.map Prod.fst := by
  induction models generalizing preds n with
  | nil =>
    simp only [runModels, Prod.mk.injEq] at h
    obtain ⟨h1, _⟩ := h
    injection h1 with h1
    subst h1
    rfl
  | cons hd tl ih =>
    obtain ⟨name, m⟩ := hd
    simp only [runModels] at h
    cases hm : m text with
    | error e => rw [hm] at h; simp at h
    | ok r =>
      rw [hm] at h
      cases hr : runModels tl text with
      | mk fst snd =>
        rw [hr] at h
        cases fst with
        | error e => simp at h
        | ok rs =>
          simp only [Prod.mk.injEq] at h
          obtain ⟨h1, _⟩ := h
          injection h1 with h1
          subst h1
          simpa using ih rs snd hr

/-- Successful persistence output in terms of the input record: the insert
either succeeded (id attached, no db_error) or raised (db_error attached). -/
theorem persistStep_ok_cases (binding : Option Handle)
    (rec0 rec : RequestRecord)
    (h : (persistStep binding rec0).1 = Except.ok rec) :
    ∃ hdl, binding = some hdl ∧
      ((∃ gid, hdl.insertOutcome = Except.ok gid ∧
          rec = { rec0 with id := some gid }) ∨
       (∃ m, hdl.insertOutcome = Except.error m ∧
          rec = { rec0 with
            db_error := some "Failed to log prediction to database." })) := by
  cases binding with
  | none => simp [persistStep] at h
  | some hdl =>
    refine ⟨hdl, rfl, ?_⟩
    cases hio : hdl.insertOutcome with
    | ok gid =>
      left
      refine ⟨gid, rfl, ?_⟩
      simp [persistStep, hio] at h
      exact h.symm
    | error m =>
      right
      refine ⟨m, rfl, ?_⟩
      simp [persistStep, hio] at h
      exact h.symm

/-- Anatomy of a successful POST /predict: the auth succeeded with the
record's owner, the fan-out succeeded with the record's predictions, and
the record carries the request text and the assembly-time clock value. -/
theorem predict_ok_inv (env : String) (verifier : Except String String)
    (models : List (String × Predictor)) (binding : Option Handle)
    (text : String) (now : Int) (rec : RequestRecord)
    (h : (predict env verifier models binding text now).result
        = Except.ok rec) :
    rec.text = text ∧ rec.timestamp = now ∧
    (∃ vc, conditional_auth env verifier = (Except.ok rec.owner, vc)) ∧
    (∃ pc, runModels models text = (Except.ok rec.predictions, pc)) := by
  unfold predict at h
  cases ha : conditional_auth env verifier with
  | mk afst asnd =>
    rw [ha] at h
    cases afst with
    | error e => simp at h
    | ok owner =>
      cases hr : runModels models text with
      | mk rfst rsnd =>
        rw [hr] at h
        cases rfst with
        | error e => simp at h
        | ok preds =>
          simp only at h
          have hp := persistStep_ok_cases binding
            { text := text, owner := owner, predictions := preds,
              timestamp := now, id := none, db_error := none } rec ?_
          · obtain ⟨hdl, _, hcases⟩ := hp
            rcases hcases with ⟨gid, _, hrec⟩ | ⟨m, _, hrec⟩ <;>
              subst hrec <;>
              refine ⟨rfl, rfl, ⟨asnd, ?_⟩, ⟨rsnd, ?_⟩⟩ <;>
              simp [ha, hr]
          · cases hps : persistStep binding
              { text := text, owner := owner, predictions := preds,
                timestamp := now, id := none, db_error := none } with
            | mk pfst psnd =>
              rw [hps] at h
              simpa using h

/-- Claim C1: for every POST /predict request in enforce mode (the module
ENV is not the development sentinel, so the gate verifies), if the external
token verifier raises, the operation returns exactly HTTP 401 with detail
"Authentication failed", no model prediction is computed and no persistence
call is made. -/
theorem claim_C1_enforce_verifier_failure (environ : Environ)
    (henv : gateIsBypass (readEnv environ) = false) (emsg : String)
    (models : List (String × Predictor)) (binding : Option Handle)
    (text : String) (now : Int) :
    (predict (readEnv environ) (Except.error emsg) models binding
        text now).result
      = Except.error (AppError.httpError 401 "Authentication failed") ∧
    statusOf (predict (readEnv environ) (Except.error emsg) models binding
        text now).result = 401 ∧
    (predict (readEnv environ) (Except.error emsg) models binding
        text now).predictCalls = 0 ∧
    (predict (readEnv environ) (Except.error emsg) models binding
        text now).insertCalls = 0 := by
  simp [predict, conditional_auth, henv, statusOf]

/-- Claim C1 witness: with ENV unset (mode defaults to prod) and a failing
verifier, the request is rejected with 401 and produces no side effects. -/
theorem claim_C1_witness :
    gateIsBypass (readEnv (fun _ => none)) = false ∧
    ((predict (readEnv (fun _ => none)) (Except.error "Token missing") []
        none "hi" 0).result
      = Except.error (AppError.httpError 401 "Authentication failed") ∧
    statusOf (predict (readEnv (fun _ => none)) (Except.error "Token missing")
        [] none "hi" 0).result = 401 ∧
    (predict (readEnv (fun _ => none)) (Except.error "Token missing") []
        none "hi" 0).predictCalls = 0 ∧
    (predict (readEnv (fun _ => none)) (Except.error "Token missing") []
        none "hi" 0).insertCalls = 0) :=
  ⟨by decide,
   claim_C1_enforce_verifier_failure (fun _ => none) (by decide)
     "Token missing" [] none "hi" 0⟩

/-- Claim C2 counterexample: with the environment mode set to
"development", the claim's condition (case-insensitive equality with the
sentinel "development") holds, yet the gate is in the verify state and a
failing verifier yields 401: the code's sentinel at line 60 is "dev", not
"development". -/
theorem claim_C2_counterexample :
    specBypassCondition "development" = true ∧
    gateIsBypass (readEnv
      (fun k => if k == "ENV" then some "development" else none)) = false ∧
    (conditional_auth (readEnv
        (fun k => if k == "ENV" then some "development" else none))
        (Except.error "no token")).1
      = Except.error (AppError.httpError 401 "Authentication failed") := by
  decide

/-- Claim C2 (amended): the Authorization Gate is in the bypass state
exactly when the environment mode value compares case-insensitively equal
to the sentinel "dev"; for every other mode value, including unset, the
gate is in the verify state. -/
theorem claim_C2_amended_bypass_iff (environ : Environ) :
    gateIsBypass (readEnv environ) = true ↔
      ∃ s, environ "ENV" = some s ∧ pyLower s = "dev" := by
  unfold gateIsBypass readEnv
  cases h : environ "ENV" with
  | none =>
    simp only [h, Option.getD]
    constructor
    · intro hc
      exact absurd hc (by decide)
    · rintro ⟨s, hs, -⟩
      exact Option.noConfusion hs
  | some s =>
    simp only [h, Option.getD, beq_iff_eq]
    constructor
    · intro hc
      exact ⟨s, rfl, hc⟩
    · rintro ⟨t, ht, hlow⟩
      injection ht with ht
      subst ht
      exact hlow

/-- Claim C3: for every POST /predict request that passes authorization
(and whose fan-out completes), persistence is best-effort: on insert
success the returned record carries an id field and no db_error field; on
insert failure the handler does not raise, the record carries db_error
equal to "Failed to log prediction to database.", and the status is still
200 in both cases. -/
theorem claim_C3_persist_best_effort (env : String)
    (verifier : Except String String)
    (models : List (String × Predictor)) (text : String) (now : Int)
    (owner : String) (vc : Nat) (preds : List (String × PredOut)) (pc : Nat)
    (hdl : Handle)
    (hauth : conditional_auth env verifier = (Except.ok owner, vc))
    (hmodels : runModels models text = (Except.ok preds, pc)) :
    (∀ gid, hdl.insertOutcome = Except.ok gid →
        (predict env verifier models (some hdl) text now).result
          = Except.ok
              { text := text, owner := owner, predictions := preds,
                timestamp := now, id := some gid, db_error := none } ∧
        statusOf (predict env verifier models (some hdl) text now).result
          = 200) ∧
    (∀ m, hdl.insertOutcome = Except.error m →
        (predict env verifier models (some hdl) text now).result
          = Except.ok
              { text := text, owner := owner, predictions := preds,
                timestamp := now, id := none,
                db_error := some "Failed to log prediction to database." } ∧
        statusOf (predict env verifier models (some hdl) text now).result
          = 200) := by
  constructor
  · intro gid hgid
    simp [predict, hauth, hmodels, persistStep, hgid, statusOf]
  · intro m hm
    simp [predict, hauth, hmodels, persistStep, hm, statusOf]

/-- Claim C3 witness: in bypass mode with the fixture model, an insert
success yields a record with id "abc123" and no db_error, and an insert
failure yields db_error with the fixed message; both respond 200. -/
theorem claim_C3_witness :
    ((predict "dev" (Except.ok "tok") demoModels
        (some { insertOutcome := Except.ok "abc123" }) "hi" 5).result
      = Except.ok
          { text := "hi", owner := "dev_user",
            predictions := [("dummy_model", demoPredOut)],
            timestamp := 5, id := some "abc123", db_error := none } ∧
     statusOf (predict "dev" (Except.ok "tok") demoModels
        (some { insertOutcome := Except.ok "abc123" }) "hi" 5).result
       = 200) ∧
    ((predict "dev" (Except.ok "tok") demoModels
        (some { insertOutcome := Except.error "DB connection error" })
        "hi" 5).result
      = Except.ok
          { text := "hi", owner := "dev_user",
            predictions := [("dummy_model", demoPredOut)],
            timestamp := 5, id := none,
            db_error := some "Failed to log prediction to database." } ∧
     statusOf (predict "dev" (Except.ok "tok") demoModels
        (some { insertOutcome := Except.error "DB connection error" })
        "hi" 5).result = 200) :=
  ⟨(claim_C3_persist_best_effort "dev" (Except.ok "tok") demoModels "hi" 5
      "dev_user" 0 [("dummy_model", demoPredOut)] 1
      { insertOutcome := Except.ok "abc123" } rfl rfl).1 "abc123" rfl,
   (claim_C3_persist_best_effort "dev" (Except.ok "tok") demoModels "hi" 5
      "dev_user" 0 [("dummy_model", demoPredOut)] 1
      { insertOutcome := Except.error "DB connection error" } rfl rfl).2
     "DB connection error" rfl⟩

/-- Claim C4: every successful POST /predict response carries exactly one
predictions entry per loaded model, keyed by model name; with an empty
registry the mapping is empty and the status is still 200. -/
theorem claim_C4_predictions_per_model (env : String)
    (verifier : Except String String)
    (models : List (String × Predictor)) (binding : Option Handle)
    (text : String) (now : Int) (rec : RequestRecord)
    (hok : (predict env verifier models binding text now).result
        = Except.ok rec) :
    rec.predictions.map Prod.fst = models.map Prod.fst ∧
    (models = [] → rec.predictions = []) ∧
    statusOf (predict env verifier models binding text now).result
      = 200 := by
  obtain ⟨-, -, -, pc, hrm⟩ :=
    predict_ok_inv env verifier models binding text now rec hok
  have hkeys := runModels_ok_keys models text rec.predictions pc hrm
  refine ⟨hkeys, ?_, ?_⟩
  · intro hnil
    subst hnil
    have h0 : rec.predictions.map Prod.fst = [] := by simpa using hkeys
    exact List.map_eq_nil_iff.mp h0
  · rw [hok]
    rfl

/-- Claim C4 witness: with an empty registry and, separately, with the
one-model fixture registry, the predictions keys match the registry. -/
theorem claim_C4_witness :
    (predict "dev" (Except.ok "tok") []
        (some { insertOutcome := Except.ok "id0" }) "hi" 2).result
      = Except.ok
          { text := "hi", owner := "dev_user", predictions := [],
            timestamp := 2, id := some "id0", db_error := none } ∧
    RequestRecord.predictions
        { text := "hi", owner := "dev_user", predictions := [],
          timestamp := 2, id := some "id0", db_error := none } = [] ∧
    statusOf (predict "dev" (Except.ok "tok") []
        (some { insertOutcome := Except.ok "id0" }) "hi" 2).result = 200 :=
  ⟨by decide,
   (claim_C4_predictions_per_model "dev" (Except.ok "tok") []
      (some { insertOutcome := Except.ok "id0" }) "hi" 2
      { text := "hi", owner := "dev_user", predictions := [],
        timestamp := 2, id := some "id0", db_error := none }
      (by decide)).2.1 rfl,
   (claim_C4_predictions_per_model "dev" (Except.ok "tok") []
      (some { insertOutcome := Except.ok "id0" }) "hi" 2
      { text := "hi", owner := "dev_user", predictions := [],
        timestamp := 2, id := some "id0", db_error := none }
      (by decide)).2.2⟩

/-- Claim C5: in bypass mode the gate returns the fixed identity
"dev_user" without invoking the verifier, and POST /predict never returns
401, for every verifier behavior. -/
theorem claim_C5_bypass_never_401 (environ : Environ)
    (henv : readEnv environ = "dev") (verifier : Except String String)
    (models : List (String × Predictor)) (binding : Option Handle)
    (text : String) (now : Int) :
    conditional_auth (readEnv environ) verifier
      = (Except.ok "dev_user", 0) ∧
    (predict (readEnv environ) verifier models binding
        text now).verifierCalls = 0 ∧
    statusOf (predict (readEnv environ) verifier models binding
        text now).result ≠ 401 := by
  rw [henv]
  have hauth : conditional_auth "dev" verifier
      = (Except.ok "dev_user", 0) := rfl
  refine ⟨hauth, ?_⟩
  unfold predict
  rw [hauth]
  cases hrm : runModels models text with
  | mk rfst rsnd =>
    cases rfst with
    | error e => exact ⟨rfl, by simp [statusOf]⟩
    | ok preds =>
      cases binding with
      | none => exact ⟨rfl, by simp [persistStep, statusOf]⟩
      | some hdl =>
        cases hio : hdl.insertOutcome with
        | ok gid => exact ⟨rfl, by simp [persistStep, hio, statusOf]⟩
        | error m => exact ⟨rfl, by simp [persistStep, hio, statusOf]⟩

/-- Claim C5 witness: with ENV set to "dev" and a raising verifier, the
gate still returns "dev_user" with zero verifier calls and the status of
the request (here a 500 from the unbound collection, not a 401) is not
401. -/
theorem claim_C5_witness :
    readEnv (fun k => if k == "ENV" then some "dev" else none) = "dev" ∧
    (conditional_auth
        (readEnv (fun k => if k == "ENV" then some "dev" else none))
        (Except.error "Token missing") = (Except.ok "dev_user", 0) ∧
     (predict (readEnv (fun k => if k == "ENV" then some "dev" else none))
        (Except.error "Token missing") demoModels none "hi" 0).verifierCalls
       = 0 ∧
     statusOf (predict
        (readEnv (fun k => if k == "ENV" then some "dev" else none))
        (Except.error "Token missing") demoModels none "hi" 0).result
       ≠ 401) :=
  ⟨by decide,
   claim_C5_bypass_never_401
     (fun k => if k == "ENV" then some "dev" else none) (by decide)
     (Except.error "Token missing") demoModels none "hi" 0⟩

/-- Claim C6: in enforce mode, whenever the verifier succeeds with
identity u (and the fan-out and a bound collection let the request
complete), the response has status 200 and its owner field is exactly u,
whatever the insert outcome. -/
theorem claim_C6_enforce_owner (environ : Environ)
    (henv : gateIsBypass (readEnv environ) = false) (u : String)
    (models : List (String × Predictor)) (text : String)
    (preds : List (String × PredOut)) (pc : Nat)
    (hmodels : runModels models text = (Except.ok preds, pc))
    (hdl : Handle) (now : Int) :
    ∃ rec, (predict (readEnv environ) (Except.ok u) models (some hdl)
        text now).result = Except.ok rec ∧
      rec.owner = u ∧
      statusOf (predict (readEnv environ) (Except.ok u) models (some hdl)
        text now).result = 200 := by
  have hauth : conditional_auth (readEnv environ) (Except.ok u)
      = (Except.ok u, 1) := by
    unfold conditional_auth
    rw [henv]
    simp
  cases hio : hdl.insertOutcome with
  | ok gid =>
    refine
      ⟨{ text := text, owner := u, predictions := preds,
         timestamp := now, id := some gid, db_error := none }, ?_, rfl, ?_⟩
    · simp [predict, hauth, hmodels, persistStep, hio]
    · simp [predict, hauth, hmodels, persistStep, hio, statusOf]
  | error m =>
    refine
      ⟨{ text := text, owner := u, predictions := preds,
         timestamp := now, id := none,
         db_error := some "Failed to log prediction to database." },
       ?_, rfl, ?_⟩
    · simp [predict, hauth, hmodels, persistStep, hio]
    · simp [predict, hauth, hmodels, persistStep, hio, statusOf]

/-- Claim C6 witness: with ENV unset (enforce mode) and a verifier that
resolves "prod_user_123", the fixture request completes with status 200
and owner "prod_user_123". -/
theorem claim_C6_witness :
    gateIsBypass (readEnv (fun _ => none)) = false ∧
    runModels demoModels "hi" = (Except.ok [("dummy_model", demoPredOut)], 1) ∧
    (∃ rec, (predict (readEnv (fun _ => none)) (Except.ok "prod_user_123")
        demoModels (some { insertOutcome := Except.ok "xyz" }) "hi" 7).result
        = Except.ok rec ∧
      rec.owner = "prod_user_123" ∧
      statusOf (predict (readEnv (fun _ => none))
        (Except.ok "prod_user_123") demoModels
        (some { insertOutcome := Except.ok "xyz" }) "hi" 7).result = 200) :=
  ⟨by decide, by decide,
   claim_C6_enforce_owner (fun _ => none) (by decide) "prod_user_123"
     demoModels "hi" [("dummy_model", demoPredOut)] 1 (by decide)
     { insertOutcome := Except.ok "xyz" } 7⟩

/-- Claim C7: if the startup database-connection attempt raises, the
module-level name collection is never bound, so every POST /predict
request that passes authorization (and whose fan-out completes) raises a
NameError at the `collection is not None` guard, surfacing as a 500 with
zero insert calls, instead of a 200 response with a persistence-error
annotation. -/
theorem claim_C7_unbound_collection (env : String)
    (verifier : Except String String)
    (models : List (String × Predictor)) (text : String) (now : Int)
    (dbErr : String) (owner : String) (vc : Nat)
    (preds : List (String × PredOut)) (pc : Nat)
    (hauth : conditional_auth env verifier = (Except.ok owner, vc))
    (hmodels : runModels models text = (Except.ok preds, pc)) :
    (predict env verifier models (startupBinding (Except.error dbErr))
        text now).result = Except.error (AppError.nameErr "collection") ∧
    statusOf (predict env verifier models
        (startupBinding (Except.error dbErr)) text now).result = 500 ∧
    (predict env verifier models (startupBinding (Except.error dbErr))
        text now).insertCalls = 0 := by
  simp [predict, hauth, hmodels, startupBinding, persistStep, statusOf]

/-- Claim C7 witness: with a failed startup connection and an authorized
fixture request, the handler fails with NameError "collection" and a 500,
with no insert call. -/
theorem claim_C7_witness :
    conditional_auth "prod" (Except.ok "prod_user_123")
      = (Except.ok "prod_user_123", 1) ∧
    runModels demoModels "hi"
      = (Except.ok [("dummy_model", demoPredOut)], 1) ∧
    ((predict "prod" (Except.ok "prod_user_123") demoModels
        (startupBinding (Except.error "mongo down")) "hi" 3).result
      = Except.error (AppError.nameErr "collection") ∧
    statusOf (predict "prod" (Except.ok "prod_user_123") demoModels
        (startupBinding (Except.error "mongo down")) "hi" 3).result = 500 ∧
    (predict "prod" (Except.ok "prod_user_123") demoModels
        (startupBinding (Except.error "mongo down")) "hi" 3).insertCalls
      = 0) :=
  ⟨by decide, by decide,
   claim_C7_unbound_collection "prod" (Except.ok "prod_user_123")
     demoModels "hi" 3 "mongo down" "prod_user_123" 1
     [("dummy_model", demoPredOut)] 1 (by decide) (by decide)⟩

/-- Claim C8: if any registered model's predict call raises during the
fan-out, the exception propagates out of the handler: the result is the
propagated error (a 500), nothing is persisted, and no record with a
partial predictions mapping is returned. -/
theorem claim_C8_model_failure_propagates (env : String)
    (verifier : Except String String)
    (models : List (String × Predictor)) (binding : Option Handle)
    (text : String) (now : Int) (e : String) (pc : Nat)
    (owner : String) (vc : Nat)
    (hauth : conditional_auth env verifier = (Except.ok owner, vc))
    (hmodels : runModels models text = (Except.error e, pc)) :
    (predict env verifier models binding text now).result
      = Except.error (AppError.exn e) ∧
    (predict env verifier models binding text now).insertCalls = 0 ∧
    statusOf (predict env verifier models binding text now).result
      = 500 ∧
    ∀ rec, (predict env verifier models binding text now).result
      ≠ Except.ok rec := by
  simp [predict, hauth, hmodels, statusOf]

/-- Claim C8 witness: a registry whose single model raises makes the
authorized request fail with the propagated exception, a 500 and zero
insert calls. -/
theorem claim_C8_witness :
    conditional_auth "dev" (Except.error "Token missing")
      = (Except.ok "dev_user", 0) ∧
    runModels [("dummy_model", failingPredictor)] "hi"
      = (Except.error "predict failed", 1) ∧
    ((predict "dev" (Except.error "Token missing")
        [("dummy_model", failingPredictor)]
        (some { insertOutcome := Except.ok "id1" }) "hi" 4).result
      = Except.error (AppError.exn "predict failed") ∧
    (predict "dev" (Except.error "Token missing")
        [("dummy_model", failingPredictor)]
        (some { insertOutcome := Except.ok "id1" }) "hi" 4).insertCalls
      = 0 ∧
    statusOf (predict "dev" (Except.error "Token missing")
        [("dummy_model", failingPredictor)]
        (some { insertOutcome := Except.ok "id1" }) "hi" 4).result = 500 ∧
    ∀ rec, (predict "dev" (Except.error "Token missing")
        [("dummy_model", failingPredictor)]
        (some { insertOutcome := Except.ok "id1" }) "hi" 4).result
      ≠ Except.ok rec) :=
  ⟨by decide, by decide,
   claim_C8_model_failure_propagates "dev" (Except.error "Token missing")
     [("dummy_model", failingPredictor)]
     (some { insertOutcome := Except.ok "id1" }) "hi" 4 "predict failed" 1
     "dev_user" 0 (by decide) (by decide)⟩

/-- Claim C9: the operating mode is read exactly once at startup; within a
single run, changing the process environment after startup changes neither
any request's outcome (in particular the gate decision) nor the health
message: the handlers never consult the request-time environment. -/
theorem claim_C9_mode_frozen_at_startup (st : AppState)
    (reqs : List RunRequest) (f : RunRequest → Environ) :
    serveAll st (reqs.map fun r => { r with liveEnviron := f r })
      = serveAll st reqs ∧
    ∀ e₁ e₂ : Environ, serveRoot st e₁ = serveRoot st e₂ := by
  constructor
  · rw [serveAll, serveAll, List.map_map]
    rfl
  · intro e₁ e₂
    rfl

/-- Claim C10: every successful record's timestamp is the clock value
captured at assembly time, so timestamps are non-negative for a
non-negative (unix seconds) clock and non-decreasing across sequential
requests of one run under a non-decreasing system clock. -/
theorem claim_C10_timestamps_monotone (st : AppState) (clock : Nat → Int)
    (reqs : Nat → ReqSpec)
    (hpos : ∀ i, 0 ≤ clock i)
    (hmono : ∀ i j, i ≤ j → clock i ≤ clock j)
    (i j : Nat) (hij : i ≤ j) (ri rj : RequestRecord)
    (hi : (nthOutcome st clock reqs i).result = Except.ok ri)
    (hj : (nthOutcome st clock reqs j).result = Except.ok rj) :
    ri.timestamp = clock i ∧ 0 ≤ ri.timestamp ∧
    ri.timestamp ≤ rj.timestamp := by
  unfold nthOutcome at hi hj
  have h1 := (predict_ok_inv _ _ _ _ _ _ _ hi).2.1
  have h2 := (predict_ok_inv _ _ _ _ _ _ _ hj).2.1
  rw [h1, h2]
  exact ⟨rfl, hpos i, hmono i j hij⟩

/-- Claim C10 witness: a two-request run under a constant clock yields
records timestamped with the clock value, non-negative and
non-decreasing. -/
theorem claim_C10_witness :
    (0 : Nat) ≤ 1 ∧
    (nthOutcome
        { env := "dev", models := [],
          binding := some { insertOutcome := Except.ok "i7" } }
        (fun _ => 2) (fun _ => { verifier := Except.ok "u", text := "hi" })
        0).result
      = Except.ok
          { text := "hi", owner := "dev_user", predictions := [],
            timestamp := 2, id := some "i7", db_error := none } ∧
    (RequestRecord.timestamp
        { text := "hi", owner := "dev_user", predictions := [],
          timestamp := 2, id := some "i7", db_error := none } = 2 ∧
     0 ≤ RequestRecord.timestamp
        { text := "hi", owner := "dev_user", predictions := [],
          timestamp := 2, id := some "i7", db_error := none } ∧
     RequestRecord.timestamp
        { text := "hi", owner := "dev_user", predictions := [],
          timestamp := 2, id := some "i7", db_error := none }
       ≤ RequestRecord.timestamp
        { text := "hi", owner := "dev_user", predictions := [],
          timestamp := 2, id := some "i7", db_error := none }) :=
  ⟨by decide, by decide,
   claim_C10_timestamps_monotone
     { env := "dev", models := [],
       binding := some { insertOutcome := Except.ok "i7" } }
     (fun _ => 2) (fun _ => { verifier := Except.ok "u", text := "hi" })
     (fun _ => (by decide : (0 : Int) ≤ 2)) (fun _ _ _ => le_refl 2)
     0 1 (by decide)
     { text := "hi", owner := "dev_user", predictions := [],
       timestamp := 2, id := some "i7", db_error := none }
     { text := "hi", owner := "dev_user", predictions := [],
       timestamp := 2, id := some "i7", db_error := none }
     (by decide) (by decide)⟩

end BasicML
